/-
Verification of the AER scraper/warehouse repository against its
natural-language specification.

The Lean definitions below are a shallow embedding of the Python sources:
  * src/WebScraping/newtest/aer_multi_dash_mp.py  (UWI helpers, per-well state,
    delimiter sniffing, chunkify)
  * src/WebScraping/newtest/s3_lock.py and src/WebScraping/old/s3_lock.py
  * src/WebScraping/newtest/s3_merge.py and src/WebScraping/s3_merge.py
  * src/WebScraping/linux/split_wells.py  (chunks_even)
  * src/Database/pg_build_warehouse.py    (wrap_uwi, detect_delimiter, build)

Modelling conventions:
  * Python `str` is Lean `String` (a list of unicode scalar chars).
  * `str.strip()` strips the characters for which Python's `str.isspace()`
    is true; the character set is written out explicitly below.
  * Python dicts that the code reads and writes by key are association
    lists `List (String × β)`; `dict.setdefault` appends at the end
    (Python dicts preserve insertion order), assignment updates the first
    occurrence of the key.
  * `re` patterns are compiled to explicit decidable matchers; `\d` and
    `[A-Z0-9]` are modelled over their ASCII ranges, and `$` also matches
    just before a final newline, as in Python.
  * Effectful code (rclone calls) is modelled by passing the observable
    world explicitly: listings, current time and command success are
    fields of a world structure, and functions return what they would
    have written alongside their result.
-/

import Mathlib

namespace AER

/-! ## Python string primitives -/

/-- Characters for which Python's `str.isspace()` returns true
(ASCII whitespace, the C1 separators, and the unicode space characters). -/
def pyIsSpace (c : Char) : Bool :=
  c == ' ' || c == '\t' || c == '\n' || c == '\r' ||
  c == '\x0b' || c == '\x0c' ||
  c == '\x1c' || c == '\x1d' || c == '\x1e' || c == '\x1f' ||
  c == '\x85' || c == ' ' || c == ' ' ||
  (0x2000 ≤ c.toNat && c.toNat ≤ 0x200a) ||
  c == ' ' || c == ' ' || c == ' ' || c == ' ' ||
  c == '　'

/-- Python `str.strip()` with no arguments. -/
def pyStrip (s : String) : String :=
  String.mk (((s.data.dropWhile pyIsSpace).reverse.dropWhile pyIsSpace).reverse)

/-- Line-break characters recognised by Python `str.splitlines()`. -/
def pyIsLineBreak (c : Char) : Bool :=
  c == '\n' || c == '\r' || c == '\x0b' || c == '\x0c' ||
  c == '\x1c' || c == '\x1d' || c == '\x1e' ||
  c == '\x85' || c == ' ' || c == ' '

/-- Worker for `pySplitlines`: `cur` is the current line, reversed. -/
def pySplitlinesGo : List Char → List Char → List (List Char)
  | [], cur => if cur.isEmpty then [] else [cur.reverse]
  | '\r' :: '\n' :: rest, cur => cur.reverse :: pySplitlinesGo rest []
  | c :: rest, cur =>
    if pyIsLineBreak c then cur.reverse :: pySplitlinesGo rest []
    else pySplitlinesGo rest (c :: cur)

/-- Python `str.splitlines()`. -/
def pySplitlines (s : String) : List String :=
  (pySplitlinesGo s.data []).map String.mk

/-- Python `sub in s` for strings (substring containment). -/
def pyContains (s sub : String) : Bool :=
  decide (sub.data <:+: s.data)

/-- Python `str.startswith`. -/
def pyStartsWith (s pre : String) : Bool :=
  pre.data.isPrefixOf s.data

/-- Python `str.endswith`. -/
def pyEndsWith (s suf : String) : Bool :=
  suf.data.isSuffixOf s.data

/-- Python `str.lower()`, modelled over ASCII letters. -/
def pyLower (s : String) : String :=
  String.mk (s.data.map Char.toLower)

/-! ## UWI wrapping (newtest/aer_multi_dash_mp.py lines 89-95,
     Database/pg_build_warehouse.py lines 79-83) -/

/-- The character class `[A-Z0-9]` of `WRAPPED_RE`. -/
def uwiClass (c : Char) : Bool :=
  ('A' ≤ c && c ≤ 'Z') || ('0' ≤ c && c ≤ '9')

/-- Matches the part of `WRAPPED_RE` before the final `/(\d)$`:
`^([A-Z0-9]{1,2})/(.+)` where `.` does not match a newline.  The
two-character prefix is preferred (greedy `{1,2}`); the cases are in fact
disjoint because `/` is not in the class.  Returns (prefix, body). -/
def wrappedMatchRest : List Char → Option (List Char × List Char)
  | c0 :: c1 :: tail =>
    if uwiClass c0 && uwiClass c1 then
      match tail with
      | '/' :: body =>
        if !body.isEmpty && !body.contains '\n' then some ([c0, c1], body) else none
      | _ => none
    else if uwiClass c0 && c1 == '/' then
      if !tail.isEmpty && !tail.contains '\n' then some ([c0], tail) else none
    else none
  | _ => none

/-- Full match of `WRAPPED_RE = ^([A-Z0-9]{1,2})/(.+)/(\d)$` against a
character list whose `$` is the absolute end.  The final `(\d)$` forces the
split: the last character is the digit group and is preceded by `/`.
Returns (group 1, group 2, group 3). -/
def wrappedMatchCore (cs : List Char) : Option (List Char × List Char × List Char) :=
  match cs.reverse with
  | d :: '/' :: restRev =>
    if d.isDigit then
      (wrappedMatchRest restRev.reverse).map (fun pb => (pb.1, pb.2, [d]))
    else none
  | _ => none

/-- `re.match(WRAPPED_RE, s)`: `$` matches at the end of the string or just
before a trailing newline. -/
def reMatchWrapped (s : String) : Option (List Char × List Char × List Char) :=
  if s.data.getLast? == some '\n' then wrappedMatchCore s.data.dropLast
  else wrappedMatchCore s.data

/-- `ensure_wrapped` (newtest/aer_multi_dash_mp.py:90-92). -/
def ensure_wrapped (uwi : String) : String :=
  let u := pyStrip uwi
  if (reMatchWrapped u).isSome then u else "00/" ++ u ++ "/0"

/-- `to_short_uwi` (newtest/aer_multi_dash_mp.py:93-95): group 2 on a
match, the input unchanged otherwise. -/
def to_short_uwi (uwi : String) : String :=
  match reMatchWrapped (pyStrip uwi) with
  | some g => String.mk g.2.1
  | none => uwi

/-- `wrap_uwi` (Database/pg_build_warehouse.py:79-83). -/
def wrap_uwi (short_or_wrapped : String) : String :=
  let s := pyStrip short_or_wrapped
  if pyStartsWith s "00/" && pyEndsWith s "/0" then s
  else "00/" ++ s ++ "/0"

example : ensure_wrapped " 01-01-099-14W4 " = "00/01-01-099-14W4/0" := by decide
example : ensure_wrapped "00/01-01-099-14W4/0" = "00/01-01-099-14W4/0" := by decide
example : to_short_uwi "00/01-01-099-14W4/0" = "01-01-099-14W4" := by decide
example : wrap_uwi "01-01-099-14W4" = "00/01-01-099-14W4/0" := by decide
example : ensure_wrapped "A/1/2" = "A/1/2" := by decide
example : wrap_uwi "A/1/2" = "00/A/1/2/0" := by decide

/-! ### Lemmas about stripping and matching freshly wrapped strings -/

lemma pyStrip_wrap (s : String) : pyStrip ("00/" ++ s ++ "/0") = "00/" ++ s ++ "/0" := by
  apply String.ext
  simp [pyStrip, String.data_append, List.dropWhile_cons, pyIsSpace]

lemma data_wrap (s : String) :
    ("00/" ++ s ++ "/0").data = '0' :: '0' :: '/' :: (s.data ++ ['/', '0']) := by
  simp [String.data_append]

lemma reMatchWrapped_wrap (s : String) (hne : s.data ≠ [])
    (hnl : s.data.contains '\n' = false) :
    reMatchWrapped ("00/" ++ s ++ "/0") = some (['0', '0'], s.data, ['0']) := by
  rw [reMatchWrapped, data_wrap]
  have hsplit : '0' :: '0' :: '/' :: (s.data ++ ['/', '0'])
      = ('0' :: '0' :: '/' :: (s.data ++ ['/'])) ++ ['0'] := by simp
  have hlast : ('0' :: '0' :: '/' :: (s.data ++ ['/', '0'])).getLast? = some '0' := by
    rw [hsplit, List.getLast?_concat]
  rw [hlast]
  have hrev : ('0' :: '0' :: '/' :: (s.data ++ ['/', '0'])).reverse
      = '0' :: '/' :: (s.data.reverse ++ ['/', '0', '0']) := by
    simp
  simp only [show (((some '0' : Option Char) == some '\n')) = false from rfl, if_false,
    wrappedMatchCore, hrev]
  have hrevrev : (s.data.reverse ++ ['/', '0', '0']).reverse = '0' :: '0' :: '/' :: s.data := by
    simp
  rw [hrevrev]
  cases hd : s.data with
  | nil => exact absurd hd hne
  | cons c cs =>
    rw [hd] at hnl
    simp only [wrappedMatchRest]
    have h0 : uwiClass '0' = true := by decide
    have hd0 : Char.isDigit '0' = true := by decide
    have hnotmem : '\n' ∉ s.data := by
      rw [hd]; intro hmem
      have hc : (c :: cs).contains '\n' = true := List.elem_eq_true_of_mem hmem
      rw [hc] at hnl; cases hnl
    simp [h0, hd0, hnl, ← hd]
    exact ⟨hne, hnotmem⟩

/-- C5 counterexample: on `"A/1/2"` (which matches `WRAPPED_RE` with prefix
`A` but is not of the `00/…/0` shape) `ensure_wrapped` returns the input
unchanged while `wrap_uwi` wraps it again. -/
theorem wrap_uwi_ne_ensure_wrapped_on_A12 :
    wrap_uwi "A/1/2" ≠ ensure_wrapped "A/1/2" := by decide

/-- C5 (amended): `pg_build_warehouse.wrap_uwi` and
`aer_multi_dash_mp.ensure_wrapped` agree on every string whose stripped value
satisfies `WRAPPED_RE` exactly when it starts with `00/` and ends with `/0`;
in particular every string whose stripped value both matches `WRAPPED_RE` and
has the `00/…/0` shape is returned unchanged by `wrap_uwi`. -/
theorem wrap_uwi_eq_ensure_wrapped :
    (∀ u : String,
      (reMatchWrapped (pyStrip u)).isSome
        = (pyStartsWith (pyStrip u) "00/" && pyEndsWith (pyStrip u) "/0") →
      wrap_uwi u = ensure_wrapped u) ∧
    (∀ u : String,
      (reMatchWrapped (pyStrip u)).isSome = true →
      (pyStartsWith (pyStrip u) "00/" && pyEndsWith (pyStrip u) "/0") = true →
      wrap_uwi u = pyStrip u) := by
  constructor
  · intro u h
    simp only [wrap_uwi, ensure_wrapped]
    rw [← h]
  · intro u _ h2
    simp only [wrap_uwi]
    rw [h2]
    simp

/-- Witness for `wrap_uwi_eq_ensure_wrapped` at the concrete wrapped UWI
`"00/abc/0"`. -/
theorem wrap_uwi_eq_ensure_wrapped_witness :
    wrap_uwi "00/abc/0" = ensure_wrapped "00/abc/0" ∧ wrap_uwi "00/abc/0" = pyStrip "00/abc/0" :=
  ⟨wrap_uwi_eq_ensure_wrapped.1 "00/abc/0" (by decide),
   wrap_uwi_eq_ensure_wrapped.2 "00/abc/0" (by decide) (by decide)⟩

/-- C6 counterexample: `"a\nb"` strips to a non-empty string that does not
match `WRAPPED_RE`, yet the round trip fails: the wrapped form
`"00/a\nb/0"` is not matched back by `WRAPPED_RE` (`.` does not match a
newline), so `to_short_uwi` returns it whole, and `ensure_wrapped` is not
idempotent on it either. -/
theorem uwi_roundtrip_fails_on_newline :
    pyStrip "a\nb" ≠ "" ∧ reMatchWrapped (pyStrip "a\nb") = none ∧
    to_short_uwi (ensure_wrapped "a\nb") ≠ pyStrip "a\nb" ∧
    ensure_wrapped (ensure_wrapped "a\nb") ≠ ensure_wrapped "a\nb" := by
  refine ⟨by decide, by decide, by decide, by decide⟩

/-- C6 (amended): for every string whose stripped value is non-empty, does
not match `WRAPPED_RE`, and contains no newline character,
`to_short_uwi (ensure_wrapped u)` recovers the stripped value and
`ensure_wrapped` is idempotent. -/
theorem uwi_short_wrapped_roundtrip (u : String)
    (hne : pyStrip u ≠ "")
    (hnm : reMatchWrapped (pyStrip u) = none)
    (hnl : (pyStrip u).data.contains '\n' = false) :
    to_short_uwi (ensure_wrapped u) = pyStrip u ∧
    ensure_wrapped (ensure_wrapped u) = ensure_wrapped u := by
  have hdata : (pyStrip u).data ≠ [] := fun hd => hne (String.ext hd)
  have hw : ensure_wrapped u = "00/" ++ pyStrip u ++ "/0" := by
    rw [ensure_wrapped]; simp [hnm]
  have hmatch : reMatchWrapped ("00/" ++ pyStrip u ++ "/0")
      = some (['0', '0'], (pyStrip u).data, ['0']) :=
    reMatchWrapped_wrap (pyStrip u) hdata hnl
  constructor
  · rw [hw, to_short_uwi, pyStrip_wrap, hmatch]
  · rw [hw, ensure_wrapped, pyStrip_wrap, hmatch]
    simp

/-- Witness for `uwi_short_wrapped_roundtrip` at `"01-01-099-14W4"`. -/
theorem uwi_short_wrapped_roundtrip_witness :
    to_short_uwi (ensure_wrapped "01-01-099-14W4") = pyStrip "01-01-099-14W4" ∧
    ensure_wrapped (ensure_wrapped "01-01-099-14W4") = ensure_wrapped "01-01-099-14W4" :=
  uwi_short_wrapped_roundtrip "01-01-099-14W4" (by decide) (by decide) (by decide)

/-! ## Distributed lock with TTL
(newtest/s3_lock.py `acquire_lock` lines 38-58, old/s3_lock.py `acquire_lock`
lines 30-50).

The observable world of one `acquire_lock(uwi)` call: the lock object at
`locks/<urlencoded uwi>.lock` (its parsed `ModTime`, or `none` when absent —
rclone `lsjson` always emits a parseable ModTime for an existing object), the
current `time.time()`, the configured `LOCK_TTL_SECONDS`, and the exit status
of the `rclone rcat` that writes the payload.  The functions return
(result, whether a payload write was attempted). -/

structure LockWorld where
  modTime : Option Int
  now : Int
  ttl : Int
  rcatOk : Bool

/-- `acquire_lock` of newtest/s3_lock.py: it first runs
`purge_expired_locks()` (which deletes the lock object when
`now - ModTime > LOCK_TTL_SECONDS`), then re-lists the key, returns `False`
on a fresh lock, deletes a stale one, and finally `rcat`s the payload. -/
def acquire_lock_newtest (w : LockWorld) : Bool × Bool :=
  let entry : Option Int :=
    match w.modTime with
    | some t => if w.now - t > w.ttl then none else some t
    | none => none
  match entry with
  | some t => if w.now - t < w.ttl then (false, false) else (w.rcatOk, true)
  | none => (w.rcatOk, true)

/-- `acquire_lock` of old/s3_lock.py: lists the key, returns `False` on a
fresh lock, otherwise `rcat`s the payload. -/
def acquire_lock_old (w : LockWorld) : Bool × Bool :=
  match w.modTime with
  | some t => if w.now - t < w.ttl then (false, false) else (w.rcatOk, true)
  | none => (w.rcatOk, true)

/-- C1: both `acquire_lock` implementations return `False` and write no
payload exactly when a lock object exists whose ModTime is less than
`LOCK_TTL_SECONDS` in the past; otherwise both write the payload and return
the write's success. -/
theorem acquire_lock_ttl (w : LockWorld) :
    ((∃ t, w.modTime = some t ∧ w.now - t < w.ttl) →
      acquire_lock_newtest w = (false, false) ∧ acquire_lock_old w = (false, false)) ∧
    (¬ (∃ t, w.modTime = some t ∧ w.now - t < w.ttl) →
      acquire_lock_newtest w = (w.rcatOk, true) ∧ acquire_lock_old w = (w.rcatOk, true)) := by
  constructor
  · rintro ⟨t, hmt, hfresh⟩
    have hle : ¬ (w.now - t > w.ttl) := by omega
    simp [acquire_lock_newtest, acquire_lock_old, hmt, hle, hfresh]
  · intro hnone
    match hmt : w.modTime with
    | none => simp [acquire_lock_newtest, acquire_lock_old, hmt]
    | some t =>
      have hstale : ¬ (w.now - t < w.ttl) := fun hlt => hnone ⟨t, hmt, hlt⟩
      by_cases hgt : w.now - t > w.ttl <;>
        simp [acquire_lock_newtest, acquire_lock_old, hmt, hstale, hgt]

/-- Witness for `acquire_lock_ttl`: a fresh lock (ModTime 100 at time 200,
TTL 3600) is refused by both implementations without a write; with no lock
object both write and return the `rcat` status. -/
theorem acquire_lock_ttl_witness :
    (acquire_lock_newtest ⟨some 100, 200, 3600, true⟩ = (false, false) ∧
     acquire_lock_old ⟨some 100, 200, 3600, true⟩ = (false, false)) ∧
    (acquire_lock_newtest ⟨none, 200, 3600, true⟩ = (true, true) ∧
     acquire_lock_old ⟨none, 200, 3600, true⟩ = (true, true)) :=
  ⟨(acquire_lock_ttl ⟨some 100, 200, 3600, true⟩).1 ⟨100, rfl, by decide⟩,
   (acquire_lock_ttl ⟨none, 200, 3600, true⟩).2 (by rintro ⟨t, ht, -⟩; cases ht)⟩

/-! ## Upload-if-new against object storage
(s3_merge.py `s3_exists`/`s3_copyto_if_new` lines 22-41, newtest/s3_merge.py
lines 23-33).

The observable world: the `rclone lsjson` listing for any remote path
(`[]` when rclone fails) and the exit status of the `rclone copyto` this
call would issue.  Keys are relative POSIX-style paths, as produced by the
scraper (`Data/<well>/<dashboard>/<file>.csv`). -/

structure LsEntry where
  path : String
  isDir : Bool
deriving DecidableEq

structure S3World where
  lsjson : String → List LsEntry
  copyOk : Bool

/-- Split a character list at a separator (keeping empty fields). -/
def splitOnCharGo (sep : Char) : List Char → List Char → List (List Char)
  | [], cur => [cur.reverse]
  | c :: rest, cur =>
    if c == sep then cur.reverse :: splitOnCharGo sep rest []
    else splitOnCharGo sep rest (c :: cur)

/-- The components of `pathlib.PurePosixPath(key)` for a relative key:
empty and `.` segments are dropped. -/
def pyPathParts (key : String) : List String :=
  ((splitOnCharGo '/' key.data []).map String.mk).filter (fun p => p != "" && p != ".")

/-- `pathlib.Path(key).name`. -/
def pyPathName (key : String) : String :=
  (pyPathParts key).getLast?.getD ""

/-- `str(pathlib.Path(key).parent)` (with the backslash replacement of
newtest/s3_merge.py a no-op on POSIX-style keys). -/
def pyPathParent (key : String) : String :=
  match (pyPathParts key).dropLast with
  | [] => "."
  | ps => String.intercalate "/" ps

/-- `s3_exists` of newtest/s3_merge.py:23-27: lists the parent directory and
looks for a non-directory entry whose `Path` equals the file name. -/
def s3_exists_newtest (w : S3World) (remote_key : String) : Bool :=
  let parent := pyPathParent remote_key
  let name := pyPathName remote_key
  (w.lsjson parent).any (fun o => !o.isDir && o.path == name)

/-- `s3_exists` of s3_merge.py:22-25: lists the key itself and looks for a
non-directory entry whose `Path` equals the file name. -/
def s3_exists_top (w : S3World) (remote_key : String) : Bool :=
  (w.lsjson remote_key).any (fun o => !o.isDir && o.path == pyPathName remote_key)

/-- `s3_copyto_if_new` of newtest/s3_merge.py:29-33.  Returns
(result, whether `rclone copyto` was invoked). -/
def s3_copyto_if_new_newtest (w : S3World) (remote_key : String) : Bool × Bool :=
  if s3_exists_newtest w remote_key then (false, false)
  else (w.copyOk, true)

/-- `s3_copyto_if_new` of s3_merge.py:32-41. -/
def s3_copyto_if_new_top (w : S3World) (remote_key : String) : Bool × Bool :=
  if s3_exists_top w remote_key then (false, false)
  else (w.copyOk, true)

/-- C8: in both implementations `s3_copyto_if_new` returns `False` without
invoking the copy when the existence check finds the object at the key, and
otherwise invokes the copy and returns its success. -/
theorem s3_copyto_if_new_never_overwrites (w : S3World) (remote_key : String) :
    ((s3_exists_newtest w remote_key = true →
        s3_copyto_if_new_newtest w remote_key = (false, false)) ∧
     (s3_exists_newtest w remote_key = false →
        s3_copyto_if_new_newtest w remote_key = (w.copyOk, true))) ∧
    ((s3_exists_top w remote_key = true →
        s3_copyto_if_new_top w remote_key = (false, false)) ∧
     (s3_exists_top w remote_key = false →
        s3_copyto_if_new_top w remote_key = (w.copyOk, true))) := by
  refine ⟨⟨fun h => ?_, fun h => ?_⟩, ⟨fun h => ?_, fun h => ?_⟩⟩ <;>
    simp [s3_copyto_if_new_newtest, s3_copyto_if_new_top, h]

/-- Witness for `s3_copyto_if_new_never_overwrites`: with
`Data/w/x.csv` present in the listing of `Data/w` the newtest upload is
skipped, and with empty listings it is attempted and succeeds. -/
theorem s3_copyto_if_new_never_overwrites_witness :
    s3_copyto_if_new_newtest ⟨fun _ => [⟨"x.csv", false⟩], true⟩ "Data/w/x.csv" = (false, false) ∧
    s3_copyto_if_new_top ⟨fun _ => [], true⟩ "Data/w/x.csv" = (true, true) :=
  ⟨((s3_copyto_if_new_never_overwrites ⟨fun _ => [⟨"x.csv", false⟩], true⟩ "Data/w/x.csv").1.1
      (by decide)),
   ((s3_copyto_if_new_never_overwrites ⟨fun _ => [], true⟩ "Data/w/x.csv").2.2 rfl)⟩

/-! ## Per-well JSON state
(newtest/aer_multi_dash_mp.py lines 100-163)

`state/wells/<label>.json` holds one JSON object per well.  The sub-objects
the state functions read and write are modelled as association lists, which
capture Python-dict semantics: `setdefault` appends a missing key at the end
(dicts preserve insertion order), assignment updates the entry in place. -/

structure SheetFile where
  status : String
  s3Key : String
deriving DecidableEq

structure DashState where
  status : String
  files : List (String × SheetFile)
  lastUpdate : String
deriving DecidableEq

structure WellState where
  wellLabel : String
  uwiWrapped : String
  dashboards : List (String × DashState)
  updatedAt : String
deriving DecidableEq

/-- Python `dict.setdefault(k, v)`'s effect on the dict. -/
def pySetdefault {β : Type} (k : String) (v : β) (l : List (String × β)) :
    List (String × β) :=
  if (List.lookup k l).isSome then l else l ++ [(k, v)]

/-- Python `d[k] = v`: update the entry in place, or append a new one. -/
def pyDictSet {β : Type} (k : String) (v : β) : List (String × β) → List (String × β)
  | [] => [(k, v)]
  | (k', v') :: t => if k' == k then (k', v) :: t else (k', v') :: pyDictSet k v t

/-- The default dashboard entry `{"status": "incomplete", "files": {}, "last_update": ""}`. -/
def newDash : DashState := ⟨"incomplete", [], ""⟩

/-- The default sheet entry `{"status": "incomplete", "s3_key": ""}`. -/
def newSheetFile : SheetFile := ⟨"incomplete", ""⟩

/-- Lines 141-142 of `state_mark_sheet_complete`: ensure the sheet has an
entry, then set it to `complete` with the given key. -/
def msFiles (sheet s3_key : String) (d : DashState) : List (String × SheetFile) :=
  pyDictSet sheet ⟨"complete", s3_key⟩ (pySetdefault sheet newSheetFile d.files)

/-- Lines 141-145 of `state_mark_sheet_complete`: the new value of the
dashboard entry (`all(... ) if d["files"] else True`, then the status). -/
def msDash (ts sheet s3_key : String) (d : DashState) : DashState :=
  let files := msFiles sheet s3_key d
  let allComplete := if files.isEmpty then true
    else files.all (fun p => p.2.status == "complete")
  ⟨if allComplete then "complete" else "incomplete", files, ts⟩

/-- The state transformation of `state_mark_sheet_complete`
(aer_multi_dash_mp.py:138-146) together with the `updated_at` write of
`state_save`; `ts` is the timestamp the call generates. -/
def state_mark_sheet_complete (ts dash sheet s3_key : String) (st : WellState) :
    WellState :=
  let dashs := pySetdefault dash newDash st.dashboards
  let d := (List.lookup dash dashs).getD newDash
  { st with dashboards := pyDictSet dash (msDash ts sheet s3_key d) dashs,
            updatedAt := ts }

/-- Lines 151-153 of `state_mark_dashboard_done`: the new dashboard entry. -/
def mdDash (ts : String) (d : DashState) : DashState :=
  let allComplete := if d.files.isEmpty then true
    else d.files.all (fun p => p.2.status == "complete")
  ⟨if allComplete then "complete" else "incomplete", d.files, ts⟩

/-- The state transformation of `state_mark_dashboard_done`
(aer_multi_dash_mp.py:148-154). -/
def state_mark_dashboard_done (ts dash : String) (st : WellState) : WellState :=
  let dashs := pySetdefault dash newDash st.dashboards
  let d := (List.lookup dash dashs).getD newDash
  { st with dashboards := pyDictSet dash (mdDash ts d) dashs, updatedAt := ts }

/-- Lines 132-134 of `state_list_incomplete_sheets`: ensure every sheet of
the manifest has a files entry. -/
def lisFiles (all_sheets : List String) (d : DashState) : List (String × SheetFile) :=
  all_sheets.foldl (fun fs s => pySetdefault s newSheetFile fs) d.files

/-- Line 136 of `state_list_incomplete_sheets`:
`files.get(s, {}).get("status") != "complete"` (a missing entry or a missing
status compares unequal to `"complete"`). -/
def lisPred (files : List (String × SheetFile)) (s : String) : Bool :=
  match List.lookup s files with
  | some e => e.status != "complete"
  | none => true

/-- The dashboard entry after `state_list_incomplete_sheets` mutated its
files map (status and last_update untouched). -/
def lisDash (all_sheets : List String) (d : DashState) : DashState :=
  ⟨d.status, lisFiles all_sheets d, d.lastUpdate⟩

/-- `state_list_incomplete_sheets` (aer_multi_dash_mp.py:129-136): mutates
the passed state (returned as first component) and returns the incomplete
sheets (second component). -/
def state_list_incomplete_sheets (dash : String) (all_sheets : List String)
    (st : WellState) : WellState × List String :=
  let dashs := pySetdefault dash newDash st.dashboards
  let d := (List.lookup dash dashs).getD newDash
  let inc := all_sheets.filter (lisPred (lisFiles all_sheets d))
  ({ st with dashboards := pyDictSet dash (lisDash all_sheets d) dashs }, inc)

/-- Forget the `last_update` and `updated_at` timestamp fields. -/
def eraseTimestamps (st : WellState) : WellState :=
  { st with updatedAt := "",
            dashboards := st.dashboards.map (fun p => (p.1, { p.2 with lastUpdate := "" })) }

/-- The dashboard entry the code would read for `dash` (default when absent). -/
def dashOf (st : WellState) (dash : String) : DashState :=
  (List.lookup dash st.dashboards).getD newDash

/-! ### Association-list lemmas -/

section AListLemmas
variable {β : Type} (k k' : String) (v v' w : β) (l : List (String × β))

lemma lookup_pyDictSet_self : ∀ l : List (String × β), List.lookup k (pyDictSet k v l) = some v := by
  intro l
  induction l with
  | nil => simp [pyDictSet, List.lookup]
  | cons h t ih =>
    obtain ⟨k', v'⟩ := h
    by_cases hk : k' = k
    · subst hk; simp [pyDictSet, List.lookup]
    · have hbeq : (k' == k) = false := beq_eq_false_iff_ne.mpr hk
      have hbeq' : (k == k') = false := beq_eq_false_iff_ne.mpr (Ne.symm hk)
      simp [pyDictSet, List.lookup, hbeq, hbeq', ih]

lemma lookup_pyDictSet_other (hne : k ≠ k') :
    ∀ l : List (String × β), List.lookup k (pyDictSet k' v l) = List.lookup k l := by
  intro l
  induction l with
  | nil => simp [pyDictSet, List.lookup, beq_eq_false_iff_ne.mpr hne]
  | cons h t ih =>
    obtain ⟨k₀, v₀⟩ := h
    by_cases hk : k₀ = k'
    · subst hk
      simp [pyDictSet, List.lookup, beq_eq_false_iff_ne.mpr hne]
    · simp [pyDictSet, List.lookup, beq_eq_false_iff_ne.mpr hk, ih]

lemma pyDictSet_self_eq :
    ∀ l : List (String × β), List.lookup k l = some v → pyDictSet k v l = l := by
  intro l
  induction l with
  | nil => intro h; cases h
  | cons h t ih =>
    obtain ⟨k₀, v₀⟩ := h
    intro hl
    by_cases hk : k₀ = k
    · subst hk
      rw [List.lookup, beq_self_eq_true] at hl
      simp at hl
      simp [pyDictSet, hl]
    · rw [List.lookup, beq_eq_false_iff_ne.mpr (Ne.symm hk)] at hl
      simp at hl
      simp [pyDictSet, beq_eq_false_iff_ne.mpr hk, ih hl]

lemma map_pyDictSet {γ : Type} (g : β → γ) :
    ∀ l : List (String × β), List.lookup k l = some w → g v = g w →
    (pyDictSet k v l).map (fun p => (p.1, g p.2)) = l.map (fun p => (p.1, g p.2)) := by
  intro l
  induction l with
  | nil => intro h; cases h
  | cons h t ih =>
    obtain ⟨k₀, v₀⟩ := h
    intro hl hg
    by_cases hk : k₀ = k
    · subst hk
      rw [List.lookup, beq_self_eq_true] at hl
      simp at hl
      subst hl
      simp [pyDictSet, hg]
    · rw [List.lookup, beq_eq_false_iff_ne.mpr (Ne.symm hk)] at hl
      simp at hl
      simp [pyDictSet, beq_eq_false_iff_ne.mpr hk, ih hl hg]

lemma lookup_append_left (h : (List.lookup k l).isSome) (l₂ : List (String × β)) :
    List.lookup k (l ++ l₂) = List.lookup k l := by
  induction l with
  | nil => simp [List.lookup] at h
  | cons hd t ih =>
    obtain ⟨k₀, v₀⟩ := hd
    by_cases hk : k = k₀
    · subst hk; simp [List.lookup]
    · rw [List.lookup, beq_eq_false_iff_ne.mpr hk] at h ⊢
      simp only [List.cons_append, List.lookup, beq_eq_false_iff_ne.mpr hk]
      exact ih h

lemma lookup_append_single_self :
    ∀ l : List (String × β), List.lookup k l = none →
    List.lookup k (l ++ [(k, v)]) = some v := by
  intro l
  induction l with
  | nil => simp [List.lookup]
  | cons hd t ih =>
    obtain ⟨k₀, v₀⟩ := hd
    intro h
    by_cases hk : k = k₀
    · subst hk; rw [List.lookup, beq_self_eq_true] at h; cases h
    · rw [List.lookup, beq_eq_false_iff_ne.mpr hk] at h
      simp only [List.cons_append, List.lookup, beq_eq_false_iff_ne.mpr hk]
      exact ih h

lemma lookup_append_single_other (hne : k ≠ k') :
    ∀ l : List (String × β), List.lookup k (l ++ [(k', v)]) = List.lookup k l := by
  intro l
  induction l with
  | nil => simp [List.lookup, beq_eq_false_iff_ne.mpr hne]
  | cons hd t ih =>
    obtain ⟨k₀, v₀⟩ := hd
    by_cases hk : k = k₀
    · subst hk; simp [List.lookup]
    · simp only [List.cons_append, List.lookup, beq_eq_false_iff_ne.mpr hk]
      exact ih

lemma lookup_pySetdefault_self :
    List.lookup k (pySetdefault k v l) = some ((List.lookup k l).getD v) := by
  rw [pySetdefault]
  cases h : List.lookup k l with
  | some x => simp [h]
  | none =>
    simp only [h, Option.isSome_none, Bool.false_eq_true, if_false, Option.getD_none]
    exact lookup_append_single_self k v l h

lemma lookup_pySetdefault_isSome :
    (List.lookup k (pySetdefault k v l)).isSome := by
  rw [lookup_pySetdefault_self]; rfl

lemma pySetdefault_of_isSome (h : (List.lookup k l).isSome) :
    pySetdefault k v l = l := by
  rw [pySetdefault, if_pos h]

lemma lookup_pySetdefault_other (hne : k ≠ k') :
    List.lookup k (pySetdefault k' v l) = List.lookup k l := by
  rw [pySetdefault]
  split
  · rfl
  · exact lookup_append_single_other k k' v hne l

end AListLemmas

/-! ### State-transformation lemmas -/

lemma dashOf_setdefault (st : WellState) (dash : String) :
    (List.lookup dash (pySetdefault dash newDash st.dashboards)).getD newDash
      = dashOf st dash := by
  rw [dashOf, lookup_pySetdefault_self]
  rfl

lemma mark_sheet_eq (ts dash sheet s3_key : String) (st : WellState) :
    state_mark_sheet_complete ts dash sheet s3_key st
      = { st with
            dashboards := pyDictSet dash (msDash ts sheet s3_key (dashOf st dash))
              (pySetdefault dash newDash st.dashboards),
            updatedAt := ts } := by
  rw [state_mark_sheet_complete, dashOf_setdefault]

lemma mark_done_eq (ts dash : String) (st : WellState) :
    state_mark_dashboard_done ts dash st
      = { st with
            dashboards := pyDictSet dash (mdDash ts (dashOf st dash))
              (pySetdefault dash newDash st.dashboards),
            updatedAt := ts } := by
  rw [state_mark_dashboard_done, dashOf_setdefault]

lemma lookup_mark_sheet (ts dash sheet s3_key : String) (st : WellState) :
    List.lookup dash (state_mark_sheet_complete ts dash sheet s3_key st).dashboards
      = some (msDash ts sheet s3_key (dashOf st dash)) := by
  rw [mark_sheet_eq]
  exact lookup_pyDictSet_self dash _ _

lemma lookup_mark_done (ts dash : String) (st : WellState) :
    List.lookup dash (state_mark_dashboard_done ts dash st).dashboards
      = some (mdDash ts (dashOf st dash)) := by
  rw [mark_done_eq]
  exact lookup_pyDictSet_self dash _ _

lemma dashOf_mark_sheet (ts dash sheet s3_key : String) (st : WellState) :
    dashOf (state_mark_sheet_complete ts dash sheet s3_key st) dash
      = msDash ts sheet s3_key (dashOf st dash) := by
  rw [dashOf, lookup_mark_sheet]
  rfl

lemma lookup_msFiles_self (sheet s3_key : String) (d : DashState) :
    List.lookup sheet (msFiles sheet s3_key d) = some ⟨"complete", s3_key⟩ :=
  lookup_pyDictSet_self sheet _ _

lemma msFiles_msDash (ts sheet s3_key : String) (d : DashState) :
    msFiles sheet s3_key (msDash ts sheet s3_key d) = msFiles sheet s3_key d := by
  show pyDictSet sheet ⟨"complete", s3_key⟩
      (pySetdefault sheet newSheetFile (msDash ts sheet s3_key d).files)
    = msFiles sheet s3_key d
  rw [show (msDash ts sheet s3_key d).files = msFiles sheet s3_key d from rfl,
    pySetdefault_of_isSome sheet newSheetFile _
      (by rw [lookup_msFiles_self]; rfl),
    pyDictSet_self_eq sheet _ _ (lookup_msFiles_self sheet s3_key d)]

lemma msDash_msDash (ts₁ ts₂ sheet s3_key : String) (d : DashState) :
    msDash ts₂ sheet s3_key (msDash ts₁ sheet s3_key d)
      = ⟨(msDash ts₁ sheet s3_key d).status, (msDash ts₁ sheet s3_key d).files, ts₂⟩ := by
  show (⟨if (if (msFiles sheet s3_key (msDash ts₁ sheet s3_key d)).isEmpty then true
            else (msFiles sheet s3_key (msDash ts₁ sheet s3_key d)).all
              (fun p => p.2.status == "complete"))
          then "complete" else "incomplete",
        msFiles sheet s3_key (msDash ts₁ sheet s3_key d), ts₂⟩ : DashState) = _
  rw [msFiles_msDash]
  rfl

/-- C2: the state transformation of `state_mark_sheet_complete` is
idempotent up to the `last_update`/`updated_at` timestamps, and in both the
once- and twice-applied state the affected sheet entry has status
`"complete"` and the given `s3_key`. -/
theorem state_mark_sheet_complete_idempotent
    (st : WellState) (ts₁ ts₂ dash sheet s3_key : String) :
    eraseTimestamps (state_mark_sheet_complete ts₂ dash sheet s3_key
        (state_mark_sheet_complete ts₁ dash sheet s3_key st))
      = eraseTimestamps (state_mark_sheet_complete ts₁ dash sheet s3_key st) ∧
    (∃ d, List.lookup dash
        (state_mark_sheet_complete ts₁ dash sheet s3_key st).dashboards = some d ∧
      List.lookup sheet d.files = some ⟨"complete", s3_key⟩) ∧
    (∃ d, List.lookup dash
        (state_mark_sheet_complete ts₂ dash sheet s3_key
          (state_mark_sheet_complete ts₁ dash sheet s3_key st)).dashboards = some d ∧
      List.lookup sheet d.files = some ⟨"complete", s3_key⟩) := by
  have hlook₁ : List.lookup dash
      (state_mark_sheet_complete ts₁ dash sheet s3_key st).dashboards
      = some (msDash ts₁ sheet s3_key (dashOf st dash)) :=
    lookup_mark_sheet ts₁ dash sheet s3_key st
  have hsd : pySetdefault dash newDash
        (state_mark_sheet_complete ts₁ dash sheet s3_key st).dashboards
      = (state_mark_sheet_complete ts₁ dash sheet s3_key st).dashboards :=
    pySetdefault_of_isSome dash newDash _ (by rw [hlook₁]; rfl)
  refine ⟨?_, ?_, ?_⟩
  · have h₂ : state_mark_sheet_complete ts₂ dash sheet s3_key
          (state_mark_sheet_complete ts₁ dash sheet s3_key st)
        = { state_mark_sheet_complete ts₁ dash sheet s3_key st with
              dashboards := pyDictSet dash
                (msDash ts₂ sheet s3_key (msDash ts₁ sheet s3_key (dashOf st dash)))
                (state_mark_sheet_complete ts₁ dash sheet s3_key st).dashboards,
              updatedAt := ts₂ } := by
      rw [mark_sheet_eq ts₂, dashOf_mark_sheet, hsd]
    have hmap : (pyDictSet dash
          (msDash ts₂ sheet s3_key (msDash ts₁ sheet s3_key (dashOf st dash)))
          (state_mark_sheet_complete ts₁ dash sheet s3_key st).dashboards).map
            (fun p => (p.1, { p.2 with lastUpdate := "" }))
        = (state_mark_sheet_complete ts₁ dash sheet s3_key st).dashboards.map
            (fun p => (p.1, { p.2 with lastUpdate := "" })) :=
      map_pyDictSet dash _ (msDash ts₁ sheet s3_key (dashOf st dash))
        (fun d => { d with lastUpdate := "" }) _ hlook₁ (by rw [msDash_msDash])
    rw [h₂]
    simp only [eraseTimestamps]
    simp only [WellState.mk.injEq]
    refine ⟨trivial, trivial, ?_, trivial⟩
    exact hmap
  · exact ⟨msDash ts₁ sheet s3_key (dashOf st dash),
      lookup_mark_sheet ts₁ dash sheet s3_key st,
      lookup_msFiles_self sheet s3_key (dashOf st dash)⟩
  · exact ⟨msDash ts₂ sheet s3_key (dashOf (state_mark_sheet_complete ts₁ dash sheet s3_key st) dash),
      lookup_mark_sheet ts₂ dash sheet s3_key _,
      lookup_msFiles_self sheet s3_key _⟩

/-! ### C4: listing incomplete sheets -/

lemma lookup_foldl_setdefault_preserves {β : Type} (v : β) :
    ∀ (L : List String) (fs : List (String × β)) (k : String) (e : β),
      List.lookup k fs = some e →
      List.lookup k (L.foldl (fun fs s => pySetdefault s v fs) fs) = some e := by
  intro L
  induction L with
  | nil => intro fs k e h; simpa using h
  | cons s t ih =>
    intro fs k e h
    simp only [List.foldl_cons]
    apply ih
    by_cases hk : k = s
    · rw [← hk, pySetdefault_of_isSome k v fs (by rw [h]; rfl)]
      exact h
    · rw [lookup_pySetdefault_other k s v fs hk]
      exact h

lemma lookup_foldl_setdefault_default {β : Type} (v : β) :
    ∀ (L : List String) (fs : List (String × β)) (k : String),
      k ∈ L → List.lookup k fs = none →
      List.lookup k (L.foldl (fun fs s => pySetdefault s v fs) fs) = some v := by
  intro L
  induction L with
  | nil => intro fs k hmem; cases hmem
  | cons s t ih =>
    intro fs k hmem hnone
    simp only [List.foldl_cons]
    by_cases hk : k = s
    · apply lookup_foldl_setdefault_preserves
      rw [← hk, lookup_pySetdefault_self, hnone]
      rfl
    · rcases List.mem_cons.mp hmem with h | h
      · exact absurd h hk
      · exact ih (pySetdefault s v fs) k h
          (by rw [lookup_pySetdefault_other k s v fs hk]; exact hnone)

lemma lookup_foldl_setdefault_isSome {β : Type} (v : β)
    (L : List String) (fs : List (String × β)) (k : String) (hmem : k ∈ L) :
    (List.lookup k (L.foldl (fun fs s => pySetdefault s v fs) fs)).isSome = true := by
  cases h : List.lookup k fs with
  | none => rw [lookup_foldl_setdefault_default v L fs k hmem h]; rfl
  | some e => rw [lookup_foldl_setdefault_preserves v L fs k e h]; rfl

lemma list_incomplete_eq (dash : String) (all_sheets : List String) (st : WellState) :
    state_list_incomplete_sheets dash all_sheets st
      = ({ st with dashboards := (pyDictSet dash (lisDash all_sheets (dashOf st dash))
              (pySetdefault dash newDash st.dashboards)) },
         all_sheets.filter (lisPred (lisFiles all_sheets (dashOf st dash)))) := by
  rw [state_list_incomplete_sheets, dashOf_setdefault]

lemma dashOf_list_incomplete (dash : String) (all_sheets : List String) (st : WellState) :
    dashOf (state_list_incomplete_sheets dash all_sheets st).1 dash
      = lisDash all_sheets (dashOf st dash) := by
  rw [dashOf, list_incomplete_eq]
  show (List.lookup dash (pyDictSet dash (lisDash all_sheets (dashOf st dash))
      (pySetdefault dash newDash st.dashboards))).getD newDash
    = lisDash all_sheets (dashOf st dash)
  rw [lookup_pyDictSet_self]
  rfl

/-- C4: `state_list_incomplete_sheets` returns exactly the sublist of
`all_sheets` (in manifest order) whose entry in the dashboard's files map
does not have status `"complete"`, and after the call every sheet of
`all_sheets` has an entry in that map, defaulting to
`{"status": "incomplete", "s3_key": ""}` when it had none. -/
theorem state_list_incomplete_sheets_spec
    (st : WellState) (dash : String) (all_sheets : List String) :
    (state_list_incomplete_sheets dash all_sheets st).2
      = all_sheets.filter (fun s =>
          match List.lookup s
              (dashOf (state_list_incomplete_sheets dash all_sheets st).1 dash).files with
          | some e => e.status != "complete"
          | none => true) ∧
    (∀ s, s ∈ all_sheets →
      (List.lookup s
        (dashOf (state_list_incomplete_sheets dash all_sheets st).1 dash).files).isSome
        = true) ∧
    (∀ s, s ∈ all_sheets → List.lookup s (dashOf st dash).files = none →
      List.lookup s (dashOf (state_list_incomplete_sheets dash all_sheets st).1 dash).files
        = some newSheetFile) := by
  refine ⟨?_, ?_, ?_⟩
  · have h2 : (state_list_incomplete_sheets dash all_sheets st).2
        = all_sheets.filter (lisPred (lisFiles all_sheets (dashOf st dash))) := by
      rw [list_incomplete_eq]
    rw [h2, dashOf_list_incomplete]
    rfl
  · intro s hs
    rw [dashOf_list_incomplete]
    exact lookup_foldl_setdefault_isSome newSheetFile all_sheets (dashOf st dash).files s hs
  · intro s hs hnone
    rw [dashOf_list_incomplete]
    exact lookup_foldl_setdefault_default newSheetFile all_sheets (dashOf st dash).files s hs hnone

/-- A concrete per-well state used to witness C4: dashboard `"D"` with one
completed sheet `"A"`. -/
def c4State : WellState :=
  ⟨"w", "", [("D", ⟨"incomplete", [("A", ⟨"complete", "k"⟩)], ""⟩)], ""⟩

/-- Witness for `state_list_incomplete_sheets_spec` on `c4State` with
manifest `["A", "B"]`. -/
theorem state_list_incomplete_sheets_spec_witness :
    (state_list_incomplete_sheets "D" ["A", "B"] c4State).2
      = ["A", "B"].filter (fun s =>
          match List.lookup s
              (dashOf (state_list_incomplete_sheets "D" ["A", "B"] c4State).1 "D").files with
          | some e => e.status != "complete"
          | none => true) ∧
    (List.lookup "B"
        (dashOf (state_list_incomplete_sheets "D" ["A", "B"] c4State).1 "D").files).isSome
      = true ∧
    List.lookup "B"
        (dashOf (state_list_incomplete_sheets "D" ["A", "B"] c4State).1 "D").files
      = some newSheetFile :=
  ⟨(state_list_incomplete_sheets_spec c4State "D" ["A", "B"]).1,
   (state_list_incomplete_sheets_spec c4State "D" ["A", "B"]).2.1 "B" (by decide),
   (state_list_incomplete_sheets_spec c4State "D" ["A", "B"]).2.2 "B" (by decide) (by decide)⟩

/-- The `all(...) if d["files"] else True` guard never changes the value:
`all` of an empty dict is already `True`. -/
lemma all_if_isEmpty (p : String × SheetFile → Bool) (files : List (String × SheetFile)) :
    (if files.isEmpty then true else files.all p) = files.all p := by
  cases files <;> simp

/-- C9: after `state_mark_sheet_complete` or `state_mark_dashboard_done`
runs for a dashboard, that dashboard's status is `"complete"` iff every
entry of its files map has status `"complete"` (an empty files map counts
as complete). -/
theorem dashboard_status_invariant (st : WellState) (ts dash sheet s3_key : String) :
    (∃ d, List.lookup dash
        (state_mark_sheet_complete ts dash sheet s3_key st).dashboards = some d ∧
      (d.status = "complete" ↔
        d.files.all (fun p => p.2.status == "complete") = true)) ∧
    (∃ d, List.lookup dash (state_mark_dashboard_done ts dash st).dashboards = some d ∧
      (d.status = "complete" ↔
        d.files.all (fun p => p.2.status == "complete") = true)) := by
  constructor
  · refine ⟨msDash ts sheet s3_key (dashOf st dash),
      lookup_mark_sheet ts dash sheet s3_key st, ?_⟩
    simp only [msDash, all_if_isEmpty]
    cases h : (msFiles sheet s3_key (dashOf st dash)).all (fun p => p.2.status == "complete") <;>
      simp [h]
  · refine ⟨mdDash ts (dashOf st dash), lookup_mark_done ts dash st, ?_⟩
    simp only [mdDash, all_if_isEmpty]
    cases h : (dashOf st dash).files.all (fun p => p.2.status == "complete") <;>
      simp [h]

/-! ## Delimiter detection
(Database/pg_build_warehouse.py `detect_delimiter` lines 100-111,
newtest/aer_multi_dash_mp.py `_detect_delimiter` lines 373-384)

Both functions score the candidate delimiters `, ; \t |` on the first
non-blank lines (60 of them in the warehouse loader, 50 in the scraper) by
the modal column count and the sum of squared deviations from it, keeping
the lower-variance (then higher-modal) candidate.  Delimiters are modelled
as `Char` (the sources use one-character strings). -/

def CANDIDATE_DELIMS : List Char := [',', ';', '\t', '|']

/-- `max(set(cols), key=cols.count)`: CPython iterates a set of small
non-negative ints in ascending order, and `max` keeps the incumbent on
ties, so this is the smallest value of maximal multiplicity. -/
def modalOf (cols : List Nat) : Nat :=
  let uniq := (List.range (cols.foldr Nat.max 0 + 1)).filter (fun v => cols.contains v)
  match uniq with
  | [] => 0
  | u :: us => us.foldl (fun best v => if cols.count v > cols.count best then v else best) u

/-- The shared loop body of both detectors: fold state is
(best delimiter, best variance — `none` is the initial `float("inf")` —,
best modal). -/
def delimStep (lines : List String) (best : Char × Option Int × Nat) (d : Char) :
    Char × Option Int × Nat :=
  let cols := lines.map (fun ln => ln.data.count d + 1)
  let modal := modalOf cols
  let var : Int := (cols.map (fun c => ((c : Int) - (modal : Int)) ^ 2)).sum
  match best with
  | (_, none, _) => (d, some var, modal)
  | (b, some bv, bm) =>
    if var < bv ∨ (var = bv ∧ modal > bm) then (d, some var, modal) else (b, some bv, bm)

/-- `detect_delimiter` (pg_build_warehouse.py:100-111): first 60 non-blank
lines. -/
def detect_delimiter (text : String) : Char :=
  let lines := ((pySplitlines text).filter (fun ln => pyStrip ln != "")).take 60
  if lines.isEmpty then ','
  else (CANDIDATE_DELIMS.foldl (delimStep lines) (',', none, 0)).1

/-- `_detect_delimiter` (aer_multi_dash_mp.py:373-384): first 50 non-blank
lines, locally defined candidate list with the same contents. -/
def detect_delimiter_newtest (text : String) : Char :=
  let CAND : List Char := [',', ';', '\t', '|']
  let lines := ((pySplitlines text).filter (fun ln => pyStrip ln != "")).take 50
  if lines.isEmpty then ','
  else (CAND.foldl (delimStep lines) (',', none, 0)).1

example : detect_delimiter "a,b\nc,d" = ',' := by decide
example : detect_delimiter_newtest "a;b\nc;d" = ';' := by decide

/-- A text with 60 non-blank lines on which the two detectors disagree:
on the first 50 lines `;` is a perfect delimiter (variance 0, modal 3
columns), but the last 10 lines give `;` positive variance over 60 lines,
so the warehouse loader falls back to `,`. -/
def c7Text : String :=
  String.intercalate "\n" (List.replicate 50 "a;b" ++ List.replicate 10 "a;b;c")

set_option maxRecDepth 100000 in
/-- C7 counterexample: the two delimiter detectors differ on `c7Text`
(the newtest one returns `;`, the warehouse one `,`). -/
theorem detect_delimiter_ne_on_c7Text :
    detect_delimiter c7Text ≠ detect_delimiter_newtest c7Text ∧
    detect_delimiter c7Text = ',' ∧ detect_delimiter_newtest c7Text = ';' := by
  refine ⟨by decide, by decide, by decide⟩

lemma delimStep_fst (lines : List String) (acc : Char × Option Int × Nat) (d : Char) :
    (delimStep lines acc d).1 = d ∨ (delimStep lines acc d).1 = acc.1 := by
  obtain ⟨b, bv, bm⟩ := acc
  cases bv with
  | none => left; rfl
  | some bv =>
    rw [delimStep]
    dsimp only
    split
    · left; rfl
    · right; rfl

lemma foldl_delimStep_mem (lines : List String) :
    ∀ (l : List Char) (acc : Char × Option Int × Nat),
      (l.foldl (delimStep lines) acc).1 ∈ acc.1 :: l := by
  intro l
  induction l with
  | nil => intro acc; exact List.mem_cons_self _ _
  | cons d t ih =>
    intro acc
    simp only [List.foldl_cons]
    have h := ih (delimStep lines acc d)
    rcases List.mem_cons.mp h with h1 | h1
    · rcases delimStep_fst lines acc d with h2 | h2
      · rw [h1, h2]; exact List.mem_cons_of_mem _ (List.mem_cons_self _ _)
      · rw [h1, h2]; exact List.mem_cons_self _ _
    · exact List.mem_cons_of_mem _ (List.mem_cons_of_mem _ h1)

/-- C7 (amended): the two delimiter detectors agree on every text with at
most 50 non-blank lines; both always return one of `, ; \t |`; and both
return `,` when the text has no non-blank line.  (On texts with more than
50 non-blank lines they can differ: see the counterexample.) -/
theorem detect_delimiter_agreement :
    (∀ text : String,
      ((pySplitlines text).filter (fun ln => pyStrip ln != "")).length ≤ 50 →
      detect_delimiter text = detect_delimiter_newtest text) ∧
    (∀ text : String,
      detect_delimiter text ∈ CANDIDATE_DELIMS ∧
      detect_delimiter_newtest text ∈ CANDIDATE_DELIMS) ∧
    (∀ text : String,
      (pySplitlines text).filter (fun ln => pyStrip ln != "") = [] →
      detect_delimiter text = ',' ∧ detect_delimiter_newtest text = ',') := by
  refine ⟨?_, ?_, ?_⟩
  · intro text h
    have h60 : ((pySplitlines text).filter (fun ln => pyStrip ln != "")).length ≤ 60 :=
      le_trans h (by norm_num)
    simp only [detect_delimiter, detect_delimiter_newtest, CANDIDATE_DELIMS]
    rw [List.take_of_length_le h, List.take_of_length_le h60]
  · intro text
    constructor
    · simp only [detect_delimiter]
      split
      · decide
      · have h := foldl_delimStep_mem
          (((pySplitlines text).filter (fun ln => pyStrip ln != "")).take 60)
          CANDIDATE_DELIMS (',', none, 0)
        rcases List.mem_cons.mp h with h1 | h1
        · rw [h1]; decide
        · exact h1
    · simp only [detect_delimiter_newtest]
      split
      · decide
      · have h := foldl_delimStep_mem
          (((pySplitlines text).filter (fun ln => pyStrip ln != "")).take 50)
          [',', ';', '\t', '|'] (',', none, 0)
        rcases List.mem_cons.mp h with h1 | h1
        · rw [h1]; decide
        · exact h1
  · intro text h
    constructor
    · simp only [detect_delimiter]
      rw [h]
      rfl
    · simp only [detect_delimiter_newtest]
      rw [h]
      rfl

/-- Witness for `detect_delimiter_agreement` at the two-line text
`"a,b\nc,d"` and the all-blank text `" \n\t"`. -/
theorem detect_delimiter_agreement_witness :
    detect_delimiter "a,b\nc,d" = detect_delimiter_newtest "a,b\nc,d" ∧
    (detect_delimiter "a,b" ∈ CANDIDATE_DELIMS ∧
      detect_delimiter_newtest "a,b" ∈ CANDIDATE_DELIMS) ∧
    (detect_delimiter " \n\t" = ',' ∧ detect_delimiter_newtest " \n\t" = ',') :=
  ⟨detect_delimiter_agreement.1 "a,b\nc,d" (by decide),
   detect_delimiter_agreement.2.1 "a,b",
   detect_delimiter_agreement.2.2 " \n\t" (by decide)⟩

/-! ## Even splitting of the wells list
(linux/split_wells.py `chunks_even` lines 14-24,
newtest/aer_multi_dash_mp.py `chunkify` lines 656-662)

The two loop bodies are textually identical
(`sz = base + (1 if k < rem else 0); out.append(seq[i:i+sz]); i += sz`),
so they share one Lean worker; `chunkify` additionally clamps the part
count with `max(1, n)`. -/

/-- The common loop: `k` is the loop index, `i` the running start offset,
the last argument the number of remaining iterations.
`seq[i:i+sz]` is `(seq.drop i).take sz`. -/
def chunksEvenGo {α : Type} (seq : List α) (base rem : Nat) :
    Nat → Nat → Nat → List (List α)
  | _, _, 0 => []
  | k, i, r + 1 =>
    let sz := base + (if k < rem then 1 else 0)
    ((seq.drop i).take sz) :: chunksEvenGo seq base rem (k + 1) (i + sz) r

/-- `chunks_even` (split_wells.py:14-24). -/
def chunks_even {α : Type} (seq : List α) (parts : Nat) : List (List α) :=
  chunksEvenGo seq (seq.length / parts) (seq.length % parts) 0 0 parts

/-- `chunkify` (aer_multi_dash_mp.py:656-662): `n = max(1, n)` then the
same loop. -/
def chunkify {α : Type} (seq : List α) (n : Nat) : List (List α) :=
  let n := max 1 n
  chunksEvenGo seq (seq.length / n) (seq.length % n) 0 0 n

example : chunks_even [1, 2, 3, 4, 5] 2 = [[1, 2, 3], [4, 5]] := by decide
example : chunkify ([] : List Nat) 3 = [[], [], []] := by decide

lemma chunksEvenGo_length {α : Type} (seq : List α) (base rem : Nat) :
    ∀ (r k i : Nat), (chunksEvenGo seq base rem k i r).length = r := by
  intro r
  induction r with
  | zero => intro k i; rfl
  | succ r ih =>
    intro k i
    simp only [chunksEvenGo, List.length_cons, ih]

lemma chunksEvenGo_join {α : Type} (seq : List α) (base rem : Nat) :
    ∀ (r k i : Nat),
      (chunksEvenGo seq base rem k i r).flatten
        = (seq.drop i).take (r * base + (min rem (k + r) - min rem k)) := by
  intro r
  induction r with
  | zero => intro k i; simp [chunksEvenGo]
  | succ r ih =>
    intro k i
    have hm : (r + 1) * base = r * base + base := by ring
    simp only [chunksEvenGo, List.flatten_cons]
    rw [ih (k + 1) (i + (base + if k < rem then 1 else 0))]
    rw [show seq.drop (i + (base + if k < rem then 1 else 0))
        = (seq.drop i).drop (base + if k < rem then 1 else 0) from by
      rw [List.drop_drop]]
    rw [← List.take_add]
    congr 1
    by_cases hk : k < rem
    · simp only [if_pos hk]
      omega
    · simp only [if_neg hk]
      omega

lemma chunksEvenGo_map_length {α : Type} (seq : List α) (base rem : Nat) :
    ∀ (r k i : Nat),
      i + (r * base + (min rem (k + r) - min rem k)) ≤ seq.length →
      (chunksEvenGo seq base rem k i r).map List.length
        = (List.range r).map (fun j => base + if k + j < rem then 1 else 0) := by
  intro r
  induction r with
  | zero => intro k i _; rfl
  | succ r ih =>
    intro k i h
    have hm : (r + 1) * base = r * base + base := by ring
    by_cases hk : k < rem
    · simp only [chunksEvenGo, if_pos hk, List.map_cons,
        List.range_succ_eq_map, List.map_map, Nat.add_zero]
      rw [ih (k + 1) (i + (base + 1)) (by omega)]
      congr 1
      · rw [List.length_take, List.length_drop]
        have : base + 1 ≤ seq.length - i := by omega
        omega
      · congr 1
        funext j
        simp only [Function.comp_apply, Nat.succ_eq_add_one]
        rw [show k + (j + 1) = k + 1 + j from by omega]
    · simp only [chunksEvenGo, if_neg hk, List.map_cons,
        List.range_succ_eq_map, List.map_map, Nat.add_zero]
      rw [ih (k + 1) (i + base) (by omega)]
      congr 1
      · rw [List.length_take, List.length_drop]
        have : base ≤ seq.length - i := by omega
        omega
      · congr 1
        funext j
        simp only [Function.comp_apply, Nat.succ_eq_add_one]
        rw [show k + (j + 1) = k + 1 + j from by omega]

/-- C10: for every list and `parts ≥ 1`, `chunks_even` returns exactly
`parts` chunks whose concatenation is the list, the `j`-th chunk having
length `⌊n/parts⌋ + 1` for `j < n % parts` and `⌊n/parts⌋` afterwards
(the longer chunks first); and `chunkify` computes the identical
partition. -/
theorem chunks_even_partition {α : Type} (seq : List α) (parts : Nat)
    (hp : 1 ≤ parts) :
    (chunks_even seq parts).length = parts ∧
    (chunks_even seq parts).flatten = seq ∧
    (chunks_even seq parts).map List.length
      = (List.range parts).map
          (fun j => seq.length / parts + if j < seq.length % parts then 1 else 0) ∧
    chunkify seq parts = chunks_even seq parts := by
  have hmod : seq.length % parts < parts := Nat.mod_lt _ (by omega)
  have htotal : parts * (seq.length / parts) + seq.length % parts = seq.length :=
    Nat.div_add_mod seq.length parts
  refine ⟨chunksEvenGo_length seq _ _ parts 0 0, ?_, ?_, ?_⟩
  · rw [chunks_even, chunksEvenGo_join seq _ _ parts 0 0]
    rw [show parts * (seq.length / parts)
        + (min (seq.length % parts) (0 + parts) - min (seq.length % parts) 0)
        = seq.length from by omega]
    rw [List.drop_zero, List.take_length]
  · rw [chunks_even, chunksEvenGo_map_length seq _ _ parts 0 0 (by omega)]
    congr 1
    funext j
    rw [Nat.zero_add]
  · rw [chunkify, chunks_even]
    rw [show max 1 parts = parts from by omega]

/-- Witness for `chunks_even_partition` at `[10, 20, 30, 40, 50]` split in
2 parts. -/
theorem chunks_even_partition_witness :
    (chunks_even [10, 20, 30, 40, 50] 2).length = 2 ∧
    (chunks_even [10, 20, 30, 40, 50] 2).flatten = [10, 20, 30, 40, 50] ∧
    (chunks_even [10, 20, 30, 40, 50] 2).map List.length
      = (List.range 2).map (fun j => 5 / 2 + if j < 5 % 2 then 1 else 0) ∧
    chunkify [10, 20, 30, 40, 50] 2 = chunks_even [10, 20, 30, 40, 50] 2 :=
  chunks_even_partition [10, 20, 30, 40, 50] 2 (by decide)

/-! ## Warehouse loader: raw-table columns and row assembly
(Database/pg_build_warehouse.py `norm_key`/`rename_headers_to_canonical`
lines 133-158, `create_empty_raw`/`ensure_raw_table` lines 212-233, `build`
lines 288-355)

`snake` (NFKD + regex over unicode word characters) is kept abstract: the
embedding is parameterised over an arbitrary `sn : String → String`, so the
theorems hold for the real `snake` in particular.  Column lists model the
raw table's columns in order; only names matter for the claim (every raw
column is TEXT). -/

def KEEP_PROVENANCE : Bool := true

/-- `norm_key` (pg_build_warehouse.py:133-134): strip, lower, drop every
character outside `[a-z0-9]` (ASCII-modelled). -/
def norm_key (h : String) : String :=
  String.mk (((pyStrip h).data.map Char.toLower).filter
    (fun c => ('a' ≤ c && c ≤ 'z') || ('0' ≤ c && c ≤ '9')))

def FORMATTED_SYNS : List String :=
  ["wellidentifier", "formatteduwi", "welluwiformatted",
   "enterwellidentifieruwi", "prodstringuwiformatted", "uwiformatted"]

def NUMERIC_SYNS : List String := ["welluwi", "uwi", "uwi_", "uwi-", "uwi—"]

/-- The header mapping of `rename_headers_to_canonical`
(pg_build_warehouse.py:143-158); `sn` is the `snake` fallback. -/
def rename_headers_to_canonical (sn : String → String) (header : List String) :
    List String :=
  header.map (fun h =>
    let k := norm_key h
    if FORMATTED_SYNS.contains k || (pyContains k "uwi" && pyContains k "formatted")
        || k == "wellidentifier" then "UWI_Formatted"
    else if NUMERIC_SYNS.contains k && !(pyContains k "formatted") then "UWI_Numeric"
    else sn h)

/-- Step 2a of `build` (pg_build_warehouse.py:292-312): the union of the
mapped headers of a dataset's files (`headers` lists each file's header;
empty headers are skipped), deduplicated case-insensitively in order,
snake-cased, with `uwi_formatted` guaranteed present. -/
def buildUnionCols (sn : String → String) (headers : List (List String)) :
    List String :=
  let step := fun (acc : List String × List String) (hdr : List String) =>
    if hdr.isEmpty then acc
    else
      let mapped := rename_headers_to_canonical sn hdr
      let mapped := if mapped.contains "UWI_Formatted" then mapped
        else mapped ++ ["UWI_Formatted"]
      mapped.foldl (fun acc2 m =>
        let key := pyLower m
        if acc2.2.contains key then acc2 else (acc2.1 ++ [m], acc2.2 ++ [key])) acc
  let u := (headers.foldl step ([], [])).1
  let u := u.map sn
  if u.contains "uwi_formatted" then u else "uwi_formatted" :: u

/-- The column-name list of the table created by `create_empty_raw`
(pg_build_warehouse.py:212-219). -/
def create_empty_raw_cols (extra_cols : List String) : List String :=
  let cols := ["uwi_formatted"] ++ extra_cols
  if KEEP_PROVENANCE then
    cols ++ ["source_dashboard", "source_sheet", "source_file"]
  else cols

/-- The column-name list of the table after `ensure_raw_table`
(pg_build_warehouse.py:221-233): creation when absent, otherwise
`ALTER TABLE ADD COLUMN` for every missing union column plus missing
provenance columns. -/
def ensure_raw_table_cols (tableExists : Bool) (existing union_cols : List String) :
    List String :=
  if !tableExists then
    create_empty_raw_cols (union_cols.filter (fun c => c != "uwi_formatted"))
  else
    let to_add := union_cols.filter (fun c => !existing.contains c)
    let to_add := if KEEP_PROVENANCE then
        to_add ++ (["source_dashboard", "source_sheet", "source_file"].filter
          (fun c => !existing.contains c))
      else to_add
    existing ++ to_add

/-- Line 330 of `build`: `wrap_uwi(info.uwi_short) if info.uwi_short else
None` (the folder name, empty when unavailable). -/
def rowUwiWrapped (uwi_short : String) : Option String :=
  if uwi_short != "" then some (wrap_uwi uwi_short) else none

/-- Lines 332-334 of `build`: pad short rows with empty strings. -/
def padRow (mapped r : List String) : List String :=
  if r.length < mapped.length then r ++ List.replicate (mapped.length - r.length) ""
  else r

/-- Line 335 of `build`: `rowdict = {mapped[i]: r[i] for i in
range(len(mapped))}` — later duplicates overwrite earlier ones. -/
def mkRowdict (mapped r : List String) : List (String × String) :=
  (mapped.zip r).foldl (fun dict p => pyDictSet p.1 p.2 dict) []

/-- Lines 336-341 of `build`: ensure a non-blank `uwi_formatted` value,
falling back to the wrapped folder UWI or `""`. -/
def ensureRowUwi (load_cols : List String) (uwiWrapped : Option String)
    (rowdict : List (String × String)) : List (String × String) :=
  if load_cols.contains "uwi_formatted" then
    match List.lookup "uwi_formatted" rowdict with
    | some v => if pyStrip v ≠ "" then rowdict
        else pyDictSet "uwi_formatted" (uwiWrapped.getD "") rowdict
    | none => pyDictSet "uwi_formatted" (uwiWrapped.getD "") rowdict
  else rowdict

/-- Lines 331-351 of `build`: the row as inserted, in table-column order
(provenance columns from the file's metadata, everything else from the
row dict with `""` default). -/
def assembleOut (load_cols mapped r : List String) (uwiWrapped : Option String)
    (dashboard sheet file_path : String) : List String :=
  let r := padRow mapped r
  let rowdict := mkRowdict mapped r
  let rowdict := ensureRowUwi load_cols uwiWrapped rowdict
  load_cols.map (fun col =>
    if KEEP_PROVENANCE
        && (col == "source_dashboard" || col == "source_sheet" || col == "source_file") then
      if col == "source_dashboard" then dashboard
      else if col == "source_sheet" then sheet
      else file_path
    else (List.lookup col rowdict).getD "")

example :
    assembleOut ["uwi_formatted", "a", "source_sheet"] ["a", "UWI_Formatted"]
      ["1", "  "] (rowUwiWrapped "07-08") "Dash" "Sheet" "f.csv"
    = ["00/07-08/0", "1", "Sheet"] := by decide

example :
    assembleOut ["uwi_formatted"] ["uwi_formatted"] ["00/x/0"]
      (rowUwiWrapped "07-08") "D" "S" "f"
    = ["00/x/0"] := by decide

/-- The value C3 predicts for the `uwi_formatted` column of a row. -/
def expectedUwiValue (mapped r : List String) (uwi_short : String) : String :=
  match List.lookup "uwi_formatted" (mkRowdict mapped (padRow mapped r)) with
  | some v => if pyStrip v ≠ "" then v else (rowUwiWrapped uwi_short).getD ""
  | none => (rowUwiWrapped uwi_short).getD ""

/-- C3: every raw table created or extended by `build` contains the column
`uwi_formatted` (it is in every union-column list, in every freshly created
table, and added when a pre-existing table lacks it), and every inserted
row carries at the `uwi_formatted` position the row's own value when
non-blank after stripping, otherwise the wrapped folder UWI (empty string
when no folder name is available). -/
theorem build_rows_carry_uwi_formatted :
    (∀ extra_cols : List String, "uwi_formatted" ∈ create_empty_raw_cols extra_cols) ∧
    (∀ (sn : String → String) (headers : List (List String)),
      "uwi_formatted" ∈ buildUnionCols sn headers) ∧
    (∀ (tableExists : Bool) (existing union_cols : List String),
      "uwi_formatted" ∈ union_cols →
      "uwi_formatted" ∈ ensure_raw_table_cols tableExists existing union_cols) ∧
    (∀ (load_cols mapped r : List String) (uwi_short dashboard sheet file_path : String)
        (j : Nat),
      load_cols.get? j = some "uwi_formatted" →
      (assembleOut load_cols mapped r (rowUwiWrapped uwi_short)
          dashboard sheet file_path).get? j
        = some (expectedUwiValue mapped r uwi_short)) := by
  refine ⟨?_, ?_, ?_, ?_⟩
  · intro extra_cols
    simp [create_empty_raw_cols, KEEP_PROVENANCE]
  · intro sn headers
    simp only [buildUnionCols]
    split
    · next hc => exact List.mem_of_elem_eq_true hc
    · exact List.mem_cons_self _ _
  · intro tableExists existing union_cols hu
    cases tableExists with
    | false =>
      simp only [ensure_raw_table_cols, Bool.not_false, if_pos]
      simp [create_empty_raw_cols, KEEP_PROVENANCE]
    | true =>
      simp only [ensure_raw_table_cols, Bool.not_true, Bool.false_eq_true, if_false,
        KEEP_PROVENANCE, if_pos]
      by_cases he : "uwi_formatted" ∈ existing
      · exact List.mem_append_left _ he
      · refine List.mem_append_right _ (List.mem_append_left _ ?_)
        have hc : existing.contains "uwi_formatted" = false := by
          cases hcc : existing.contains "uwi_formatted" with
          | false => rfl
          | true => exact absurd (List.mem_of_elem_eq_true hcc) he
        exact List.mem_filter.mpr ⟨hu, by rw [hc]; rfl⟩
  · intro load_cols mapped r uwi_short dashboard sheet file_path j hj
    have hmem : "uwi_formatted" ∈ load_cols := List.get?_mem hj
    have hcont : load_cols.contains "uwi_formatted" = true :=
      List.elem_eq_true_of_mem hmem
    simp only [assembleOut, List.get?_map, hj, Option.map_some']
    have hprov : (KEEP_PROVENANCE
        && (("uwi_formatted" : String) == "source_dashboard"
          || ("uwi_formatted" : String) == "source_sheet"
          || ("uwi_formatted" : String) == "source_file")) = false := by decide
    rw [hprov, if_neg (by simp)]
    rw [ensureRowUwi, if_pos hcont]
    rw [expectedUwiValue]
    cases hlk : List.lookup "uwi_formatted" (mkRowdict mapped (padRow mapped r)) with
    | none =>
      congr 1
      show (List.lookup "uwi_formatted"
          (pyDictSet "uwi_formatted" ((rowUwiWrapped uwi_short).getD "")
            (mkRowdict mapped (padRow mapped r)))).getD ""
        = (rowUwiWrapped uwi_short).getD ""
      rw [lookup_pyDictSet_self]
      rfl
    | some v =>
      congr 1
      show (List.lookup "uwi_formatted"
          (if pyStrip v ≠ "" then mkRowdict mapped (padRow mapped r)
           else pyDictSet "uwi_formatted" ((rowUwiWrapped uwi_short).getD "")
             (mkRowdict mapped (padRow mapped r)))).getD ""
        = (if pyStrip v ≠ "" then v else (rowUwiWrapped uwi_short).getD "")
      by_cases hb : pyStrip v = ""
      · rw [if_neg (fun hcon => hcon hb), if_neg (fun hcon => hcon hb),
          lookup_pyDictSet_self]
        rfl
      · rw [if_pos hb, if_pos hb, hlk]
        rfl

/-- Witness for `build_rows_carry_uwi_formatted`: the hypothesis-bearing
parts applied at a pre-existing table `["a"]` extended with
`["uwi_formatted"]`, and at a one-column row whose mapped header has no UWI
column (so the wrapped folder UWI `00/07-08/0` is used). -/
theorem build_rows_carry_uwi_formatted_witness :
    "uwi_formatted" ∈ ensure_raw_table_cols true ["a"] ["uwi_formatted"] ∧
    (assembleOut ["uwi_formatted", "x"] ["x"] ["1"] (rowUwiWrapped "07-08")
        "D" "S" "f.csv").get? 0
      = some (expectedUwiValue ["x"] ["1"] "07-08") :=
  ⟨build_rows_carry_uwi_formatted.2.2.1 true ["a"] ["uwi_formatted"] (by decide),
   build_rows_carry_uwi_formatted.2.2.2 ["uwi_formatted", "x"] ["x"] ["1"]
     "07-08" "D" "S" "f.csv" 0 (by decide)⟩

end AER
